import Mathlib

/-!
# Verified model of `synapse/handlers/saml_handler.py`

A shallow embedding of the SAML session-tracking and identity-mapping
handler.  Python strings are embedded as Lean `String`, the `ava`
attribute dictionary as an association list from attribute name to the
list of attribute values, the outstanding-requests dict as an
association list keyed by request id, and the `external_ids` table as a
list of rows `((provider, externalId), localUserId)`.  Exceptions are
embedded as `Except` values; `SynapseError(code, msg)` becomes
`PyError.synapseError code msg` and any other Python exception becomes
`PyError.otherError msg`.
-/

namespace SamlSpec

/-- A Python exception: either a `SynapseError(code, msg)` or some other
uncaught exception (e.g. a bare `Exception` or an `IndexError`). -/
inductive PyError
  | synapseError (code : Nat) (msg : String)
  | otherError (msg : String)
deriving DecidableEq, Repr

/-- `Saml2SessionData` from the source: data tracked about SAML2 sessions. -/
structure Saml2SessionData where
  creation_time : Int
  ui_auth_session_id : Option String
deriving DecidableEq, Repr

/-- The `saml2_auth.ava` attribute dictionary: attribute name to value list. -/
abbrev Ava := List (String × List String)

/-- The `_outstanding_requests_dict`: request id to session data. -/
abbrev OutstandingTable := List (String × Saml2SessionData)

/-- One row of the `external_ids` table: `((provider, externalId), localUserId)`. -/
abbrev Binding := (String × String) × String

/-- Dictionary lookup on an association list (first matching key wins,
as in a Python dict whose keys are unique). -/
def assocLookup {κ α : Type} [DecidableEq κ] : List (κ × α) → κ → Option α
  | [], _ => none
  | (k, v) :: rest, key => if k = key then some v else assocLookup rest key

/-- `dict.pop(key, None)`, the removal part: drop the entry with the key. -/
def assocRemove {κ α : Type} [DecidableEq κ] (l : List (κ × α)) (key : κ) :
    List (κ × α) :=
  l.filter (fun p => p.1 ≠ key)

/-- `ava[k]` / `k in ava` support: lookup in the attribute dictionary. -/
def avaGet (ava : Ava) (k : String) : Option (List String) :=
  assocLookup ava k

/-- Modelled from the spec: `mxid_localpart_allowed_characters` is imported
from `synapse.types`, which is not part of the packaged source.  The spec
describes it as "the allowed local-identifier character set" whose namespace
"reserves leading underscore": the lowercase letters, the digits, and the
punctuation `_ - . / =` admitted in Matrix localparts. -/
def mxid_localpart_allowed_characters : List Char :=
  "abcdefghijklmnopqrstuvwxyz0123456789_-./=".data

/-- One character of `DOT_REPLACE_PATTERN.sub(".", username)`: characters
outside the allowed set become a dot. -/
def dotReplaceChar (c : Char) : Char :=
  if c ∈ mxid_localpart_allowed_characters then c else '.'

/-- `re.sub("^_", "", username)`: remove a single leading underscore. -/
def stripOneLeadingUnderscore : List Char → List Char
  | '_' :: rest => rest
  | l => l

/-- `dot_replace_for_mxid` from the source: lower-case, replace any character
which is not allowed in Matrix IDs with a dot, then strip one leading
underscore. -/
def dot_replace_for_mxid (username : String) : String :=
  ⟨stripOneLeadingUnderscore ((username.data.map Char.toLower).map dotReplaceChar)⟩

/-- Lower-case hexadecimal digit for `n < 16`. -/
def hexDigitChar (n : Nat) : Char :=
  if n < 10 then Char.ofNat (48 + n) else Char.ofNat (87 + n)

/-- `=`-prefixed two-digit hex escape of one character. -/
def hexEscape (c : Char) : List Char :=
  ['=', hexDigitChar (c.toNat / 16 % 16), hexDigitChar (c.toNat % 16)]

/-- Modelled from the spec: `map_username_to_mxid_localpart` is imported from
`synapse.types`, which is not part of the packaged source.  The spec's
hex-encode policy: "bytes outside the allowed local-identifier character set
are percent/hex-escaped, guaranteeing a unique reversible-ish encoding";
upper-case letters and the reserved underscore are encoded losslessly with an
underscore marker. -/
def map_username_to_mxid_localpart (username : String) : String :=
  ⟨username.data.flatMap (fun c =>
    if c.isUpper then ['_', c.toLower]
    else if c = '_' then ['_', '_']
    else if c ∈ mxid_localpart_allowed_characters then [c]
    else hexEscape c)⟩

/-- Modelled from the spec: `UserID.to_string` from `synapse.types`, not part
of the packaged source: a local identifier rendered as `@localpart:domain`. -/
def UserID_to_string (localpart hostname : String) : String :=
  "@" ++ localpart ++ ":" ++ hostname

/-- `SamlConfig` from the source: the mapper configuration. -/
structure SamlConfig where
  mxid_source_attribute : String
  mxid_mapper : String → String

/-- The dict returned by `saml_response_to_user_attributes`, reduced to the
keys the resolver reads (`.get("mxid_localpart")`, `.get("displayname")`,
`.get("emails", [])`). -/
structure AttributeDict where
  mxid_localpart : Option String
  displayname : Option String
  emails : List String
deriving DecidableEq, Repr

/-- `DefaultSamlMappingProvider.get_remote_user_id`: return
`saml_response.ava["uid"][0]`, turning the `KeyError` for a missing `uid`
into `SynapseError(400, ...)`; an empty value list would raise an uncaught
`IndexError`. -/
def default_get_remote_user_id (ava : Ava) : Except PyError String :=
  match avaGet ava "uid" with
  | none => .error (.synapseError 400 "'uid' not in SAML2 response")
  | some [] => .error (.otherError "IndexError: list index out of range")
  | some (v :: _) => .ok v

/-- `DefaultSamlMappingProvider.saml_response_to_user_attributes`: read the
configured source attribute (missing key raises `SynapseError(400, ...)`),
apply the configured mapper, append the decimal `failures` when non-zero,
and collect the optional display name and emails. -/
def default_saml_response_to_user_attributes (cfg : SamlConfig) (ava : Ava)
    (failures : Nat) : Except PyError AttributeDict :=
  match avaGet ava cfg.mxid_source_attribute with
  | none => .error (.synapseError 400 (cfg.mxid_source_attribute ++ " not in SAML2 response"))
  | some [] => .error (.otherError "IndexError: list index out of range")
  | some (mxid_source :: _) =>
    let base_mxid_localpart := cfg.mxid_mapper mxid_source
    let localpart := base_mxid_localpart ++ (if failures ≠ 0 then toString failures else "")
    match avaGet ava "displayName" with
    | some [] => .error (.otherError "IndexError: list index out of range")
    | some (d :: _) =>
      .ok ⟨some localpart, some d, (avaGet ava "email").getD []⟩
    | none =>
      .ok ⟨some localpart, none, (avaGet ava "email").getD []⟩

/-- The pluggable `_user_mapping_provider` interface. -/
structure MappingProvider where
  get_remote_user_id : Ava → Except PyError String
  saml_response_to_user_attributes : Ava → Nat → Except PyError AttributeDict

/-- The default provider built from a `SamlConfig`. -/
def DefaultSamlMappingProvider (cfg : SamlConfig) : MappingProvider :=
  ⟨default_get_remote_user_id, default_saml_response_to_user_attributes cfg⟩

/-- `self._auth_provider_id`. -/
def auth_provider_id : String := "saml"

/-- The registration collaborator:
`register_user(localpart, default_display_name, bind_emails)`. -/
abbrev RegisterFn := String → Option String → List String → Except PyError String

instance {ε α : Type} [DecidableEq ε] [DecidableEq α] : DecidableEq (Except ε α) :=
  fun a b =>
    match a, b with
    | .error e, .error f => decidable_of_iff (e = f) (by simp)
    | .ok x, .ok y => decidable_of_iff (x = y) (by simp)
    | .error _, .ok _ => .isFalse (by simp)
    | .ok _, .error _ => .isFalse (by simp)

/-- The `for i in range(1000)` collision-retry loop from
`_map_saml_response_to_user`: at attempt `i` call the provider's
`saml_response_to_user_attributes`, fail if no `mxid_localpart` is produced,
and accept the first candidate whose case-insensitive account lookup is
empty; with the fuel exhausted, raise `SynapseError(500, ...)`. -/
def collisionLoop (P : MappingProvider) (ava : Ava)
    (accountsCI : String → List String) (hostname : String) :
    Nat → Nat → Except PyError (String × Option String × List String)
  | _, 0 => .error (.synapseError 500 "Unable to generate a Matrix ID from the SAML response")
  | i, fuel + 1 =>
    match P.saml_response_to_user_attributes ava i with
    | .error e => .error e
    | .ok attribute_dict =>
      match attribute_dict.mxid_localpart with
      | none => .error (.otherError
          "Error parsing SAML2 response: SAML mapping provider plugin did not return a mxid_localpart value")
      | some localpart =>
        if localpart = "" then
          .error (.otherError
            "Error parsing SAML2 response: SAML mapping provider plugin did not return a mxid_localpart value")
        else if accountsCI (UserID_to_string localpart hostname) = [] then
          .ok (localpart, attribute_dict.displayname, attribute_dict.emails)
        else
          collisionLoop P ava accountsCI hostname (i + 1) fuel

/-- The outcome of the resolution body run under the mapping lock: the
returned value or the exception, together with the final `external_ids`
table and the localparts passed to the registration collaborator. -/
structure CoreOutcome where
  result : Except PyError (String × Option Saml2SessionData)
  bindings : List Binding
  register_calls : List String
deriving DecidableEq, Repr

/-- The fresh-provisioning tail of `_map_saml_response_to_user`: run the
collision-retry loop, call `register_user`, and only then
`record_user_external_id`. -/
def freshPath (P : MappingProvider) (hostname : String)
    (accountsCI : String → List String) (register_user : RegisterFn)
    (bindings : List Binding) (current_session : Option Saml2SessionData)
    (ava : Ava) (remote_user_id : String) : CoreOutcome :=
  match collisionLoop P ava accountsCI hostname 0 1000 with
  | .error e => ⟨.error e, bindings, []⟩
  | .ok (localpart, displayname, emails) =>
    match register_user localpart displayname emails with
    | .error e => ⟨.error e, bindings, [localpart]⟩
    | .ok registered_user_id =>
      ⟨.ok (registered_user_id, current_session),
       bindings ++ [((auth_provider_id, remote_user_id), registered_user_id)],
       [localpart]⟩

/-- The body of `_map_saml_response_to_user` after the session pop: extract
the remote user id, try the existing-binding fast path, then the
grandfathered legacy lookup, then fresh provisioning.  `accountsCI` embeds
`get_users_by_id_case_insensitive` (the keys of the returned dict, in
order), and `bindings` the `external_ids` table read by
`get_user_by_external_id` and extended by `record_user_external_id`. -/
def resolveCore (P : MappingProvider) (grandfathered : Option String)
    (hostname : String) (accountsCI : String → List String)
    (register_user : RegisterFn) (bindings : List Binding)
    (current_session : Option Saml2SessionData) (ava : Ava) : CoreOutcome :=
  match P.get_remote_user_id ava with
  | .error e => ⟨.error e, bindings, []⟩
  | .ok remote_user_id =>
    if remote_user_id = "" then
      ⟨.error (.otherError "Failed to extract remote user id from SAML response"),
       bindings, []⟩
    else
      match assocLookup bindings (auth_provider_id, remote_user_id) with
      | some registered_user_id =>
        ⟨.ok (registered_user_id, current_session), bindings, []⟩
      | none =>
        match grandfathered with
        | some g =>
          if g ≠ "" then
            match avaGet ava g with
            | some (attrval :: _) =>
              let user_id := UserID_to_string (map_username_to_mxid_localpart attrval) hostname
              match accountsCI user_id with
              | registered_user_id :: _ =>
                ⟨.ok (registered_user_id, current_session),
                 bindings ++ [((auth_provider_id, remote_user_id), registered_user_id)],
                 []⟩
              | [] =>
                freshPath P hostname accountsCI register_user bindings current_session ava remote_user_id
            | some [] =>
              ⟨.error (.otherError "IndexError: list index out of range"), bindings, []⟩
            | none =>
              freshPath P hostname accountsCI register_user bindings current_session ava remote_user_id
          else
            freshPath P hostname accountsCI register_user bindings current_session ava remote_user_id
        | none =>
          freshPath P hostname accountsCI register_user bindings current_session ava remote_user_id

/-- The raw `SAMLResponse` as the external library sees it: whether it
parses, whether it is signed, its `inResponseTo` value, and its attribute
statement. -/
structure RawResponse where
  parses : Bool
  not_signed : Bool
  in_response_to : String
  ava : Ava
deriving DecidableEq, Repr

/-- The validated assertion handed back by the external library. -/
structure ParsedAuth where
  not_signed : Bool
  in_response_to : String
  ava : Ava
deriving DecidableEq, Repr

/-- Modelled from the spec: the external SAML library's
`parse_authn_request_response` — the spec's collaborator
`parseAndVerify(rawResponseBytes, pendingRequestIds) -> ValidatedAssertion |
fails(ParseOrSignatureError)`.  An unparseable response, or one whose
`inResponseTo` matches no pending request id, fails; the caller inspects the
signature flag afterwards, as in the source. -/
def parse_authn_request_response (resp : RawResponse)
    (outstanding : List String) : Except String ParsedAuth :=
  if resp.parses = false then .error "invalid response"
  else if resp.in_response_to ∈ outstanding then
    .ok ⟨resp.not_signed, resp.in_response_to, resp.ava⟩
  else .error "unsolicited response"

/-- The full state read and written by one `_map_saml_response_to_user`
call: its returned value or exception, the outstanding-requests table, the
`external_ids` table, and the registration calls made. -/
structure ResolveOutcome where
  result : Except PyError (String × Option Saml2SessionData)
  outstanding : OutstandingTable
  bindings : List Binding
  register_calls : List String
deriving DecidableEq, Repr

/-- `_map_saml_response_to_user`: parse (wrapping any failure as
`SynapseError(400, ...)`), reject unsigned responses, pop the pending
session for `in_response_to`, then resolve under the mapping lock. -/
def map_saml_response_to_user (P : MappingProvider)
    (grandfathered : Option String) (hostname : String)
    (accountsCI : String → List String) (register_user : RegisterFn)
    (outstanding : OutstandingTable) (bindings : List Binding)
    (resp : RawResponse) : ResolveOutcome :=
  match parse_authn_request_response resp (outstanding.map Prod.fst) with
  | .error msg =>
    ⟨.error (.synapseError 400 ("Unable to parse SAML2 response: " ++ msg)),
     outstanding, bindings, []⟩
  | .ok saml2_auth =>
    if saml2_auth.not_signed then
      ⟨.error (.synapseError 400 "SAML2 response was not signed"),
       outstanding, bindings, []⟩
    else
      let current_session := assocLookup outstanding saml2_auth.in_response_to
      let outstanding1 := assocRemove outstanding saml2_auth.in_response_to
      let c := resolveCore P grandfathered hostname accountsCI register_user
        bindings current_session saml2_auth.ava
      ⟨c.result, outstanding1, c.bindings, c.register_calls⟩

/-- `expire_sessions`: delete every outstanding session whose
`creation_time` is strictly below `now - saml2_session_lifetime`. -/
def expire_sessions (now saml2_session_lifetime : Int)
    (outstanding : OutstandingTable) : OutstandingTable :=
  outstanding.filter (fun p => ¬ (p.2.creation_time < now - saml2_session_lifetime))

/-- The sweep as the spec's testable property words it ("removes exactly the
entries with `creationTimeMs <= now - L`"), for comparison with the source's
`expire_sessions`. -/
def sweepExpired_claim (now lifetime : Int)
    (outstanding : OutstandingTable) : OutstandingTable :=
  outstanding.filter (fun p => ¬ (p.2.creation_time ≤ now - lifetime))

/-! ## Concrete instances used for witnesses and counterexamples -/

/-- A configuration whose mapper statically proposes `alice` for any input. -/
def staticCfg : SamlConfig := ⟨"uid", fun _ => "alice"⟩

/-- A configuration whose mapper is the identity. -/
def idCfg : SamlConfig := ⟨"uid", fun s => s⟩

/-- The candidate localparts the static-`alice` configuration produces. -/
def demoCand (i : Nat) : String := "alice" ++ (if i ≠ 0 then toString i else "")

/-- An assertion carrying only a `uid` attribute. -/
def demoAva : Ava := [("uid", ["ext-alice"])]

/-- A store in which the candidates at attempt indices 0 through 5 exist. -/
def takenThrough5 : String → List String := fun uid =>
  if uid = "@alice:hs" ∨ uid = "@alice1:hs" ∨ uid = "@alice2:hs" ∨
      uid = "@alice3:hs" ∨ uid = "@alice4:hs" ∨ uid = "@alice5:hs"
  then [uid] else []

/-- A store with no accounts at all. -/
def noAccounts : String → List String := fun _ => []

/-- A registration collaborator that always succeeds. -/
def demoRegister : RegisterFn := fun lp _ _ => .ok ("@" ++ lp ++ ":hs")

/-- A registration collaborator that always fails. -/
def failRegister : RegisterFn :=
  fun _ _ _ => .error (.otherError "registration database unavailable")

/-- An assertion carrying a grandfathered `legacy_uid` attribute. -/
def gfAva : Ava := [("uid", ["bob-ext"]), ("legacy_uid", ["bob"])]

/-- A store in which the grandfathered candidate matches two accounts
case-insensitively. -/
def gfTwoAccounts : String → List String := fun uid =>
  if uid = "@bob:hs" then ["@bob:hs", "@Bob:hs"] else []

/-- A one-entry pending-session table. -/
def c5Outstanding : OutstandingTable := [("req1", ⟨100, none⟩)]

/-- A parsed, signed response matching `req1` but lacking a `uid`
attribute. -/
def c5Resp : RawResponse := ⟨true, false, "req1", [("someattr", ["v"])]⟩

/-! ## Expiry sweep (C4) -/

/-- Claim C4 (corrected): the sweep keeps an entry sitting exactly on the
boundary `creationTimeMs = now - L`, which the claim's `<=` rule would
remove: at `now = 10`, `L = 10`, the entry created at time `0` survives
`expire_sessions` but not the claim's `sweepExpired`. -/
theorem expire_sessions_boundary_counterexample :
    expire_sessions 10 10 [("r", ⟨0, none⟩)] = [("r", ⟨0, none⟩)] ∧
    sweepExpired_claim 10 10 [("r", ⟨0, none⟩)] = [] := by
  decide

/-- Claim C4 (amended): for every `now`, lifetime `L` and pending-session
table, the expiry sweep removes exactly the entries with
`creationTimeMs < now - L` (strictly) and leaves every other entry
unchanged, in order. -/
theorem expire_sessions_removes_exactly_strictly_older
    (now L : Int) (tbl : OutstandingTable) :
    (expire_sessions now L tbl).Sublist tbl ∧
    ∀ e, e ∈ expire_sessions now L tbl ↔ (e ∈ tbl ∧ now - L ≤ e.2.creation_time) := by
  refine ⟨List.filter_sublist tbl, fun e => ?_⟩
  simp [expire_sessions, List.mem_filter, not_lt]

/-! ## Dot-replace normalization (C9) -/

theorem dotReplaceChar_mem_allowed (c : Char) :
    dotReplaceChar c ∈ mxid_localpart_allowed_characters := by
  unfold dotReplaceChar
  split
  · assumption
  · decide

theorem allowed_char_fixed (c : Char)
    (h : c ∈ mxid_localpart_allowed_characters) :
    Char.toLower c = c ∧ dotReplaceChar c = c := by
  have hl : ∀ x ∈ mxid_localpart_allowed_characters, Char.toLower x = x := by decide
  exact ⟨hl c h, by simp [dotReplaceChar, h]⟩

theorem map_lower_dot_fixed (l : List Char)
    (h : ∀ c ∈ l, c ∈ mxid_localpart_allowed_characters) :
    (l.map Char.toLower).map dotReplaceChar = l := by
  induction l with
  | nil => rfl
  | cons c t ih =>
    have hc := allowed_char_fixed c (h c (by simp))
    simp only [List.map_cons, hc.1, hc.2, List.cons.injEq, true_and]
    exact ih (fun d hd => h d (by simp [hd]))

theorem stripOneLeadingUnderscore_subset (l : List Char) :
    ∀ c ∈ stripOneLeadingUnderscore l, c ∈ l := by
  intro c hc
  unfold stripOneLeadingUnderscore at hc
  split at hc
  next => exact List.mem_cons_of_mem _ hc
  next => exact hc

theorem stripOneLeadingUnderscore_of_head_ne (l : List Char)
    (h : l.head? ≠ some '_') : stripOneLeadingUnderscore l = l := by
  unfold stripOneLeadingUnderscore
  split
  next => exact absurd rfl h
  next => rfl

/-- Claim C9 (counterexample): the dot-replace policy strips only one
leading underscore per application, so it is not idempotent on `"__a"`:
one application gives `"_a"`, a second gives `"a"`. -/
theorem dot_replace_for_mxid_not_idempotent :
    dot_replace_for_mxid (dot_replace_for_mxid "__a") ≠ dot_replace_for_mxid "__a" := by
  decide

/-- Claim C9 (amended): the dot-replace policy is idempotent on every input
whose normalized form does not begin with an underscore (equivalently, on
inputs that do not begin with two or more underscores after lower-casing and
dot-replacement); in general a second application strips one further leading
underscore. -/
theorem dot_replace_for_mxid_idempotent (x : String)
    (h : (dot_replace_for_mxid x).data.head? ≠ some '_') :
    dot_replace_for_mxid (dot_replace_for_mxid x) = dot_replace_for_mxid x := by
  have hmem : ∀ c ∈ (dot_replace_for_mxid x).data,
      c ∈ mxid_localpart_allowed_characters := by
    intro c hc
    have hc' := stripOneLeadingUnderscore_subset _ _ hc
    rcases List.mem_map.mp hc' with ⟨b, _, rfl⟩
    exact dotReplaceChar_mem_allowed b
  show (⟨stripOneLeadingUnderscore
      (((dot_replace_for_mxid x).data.map Char.toLower).map dotReplaceChar)⟩ : String) =
    dot_replace_for_mxid x
  rw [map_lower_dot_fixed _ hmem, stripOneLeadingUnderscore_of_head_ne _ h]

/-- Witness for C9 (amended) at `x = "Ab_C"`: the normalized form `"ab.c"`
does not begin with an underscore and a second application fixes it. -/
theorem dot_replace_for_mxid_idempotent_witness :
    dot_replace_for_mxid (dot_replace_for_mxid "Ab_C") = dot_replace_for_mxid "Ab_C" :=
  dot_replace_for_mxid_idempotent "Ab_C" (by decide)

/-! ## Default mapping provider (C8, C10) -/

theorem string_append_empty_right (s : String) : s ++ "" = s := by
  cases s with
  | mk data =>
    show String.mk (data ++ []) = String.mk data
    rw [List.append_nil]

/-- Claim C10: for every mapper configuration, the default provider's
`get_remote_user_id` is the same function — the configured
`mxid_source_attribute` has no effect on it — and it returns the first
value of the hard-coded `uid` attribute, raising a 400 error when `uid`
is absent. -/
theorem default_provider_remote_user_id_ignores_config
    (cfg cfg' : SamlConfig) (ava : Ava) :
    (DefaultSamlMappingProvider cfg).get_remote_user_id =
      (DefaultSamlMappingProvider cfg').get_remote_user_id ∧
    (∀ v vs, avaGet ava "uid" = some (v :: vs) →
      (DefaultSamlMappingProvider cfg).get_remote_user_id ava = .ok v) ∧
    (avaGet ava "uid" = none →
      (DefaultSamlMappingProvider cfg).get_remote_user_id ava =
        .error (.synapseError 400 "'uid' not in SAML2 response")) := by
  refine ⟨rfl, ?_, ?_⟩
  · intro v vs h
    simp [DefaultSamlMappingProvider, default_get_remote_user_id, h]
  · intro h
    simp [DefaultSamlMappingProvider, default_get_remote_user_id, h]

/-- Witness for C10: with `mxid_source_attribute = "email"` the external
user id still comes from `uid`; and a response with no `uid` is a 400. -/
theorem default_provider_remote_user_id_ignores_config_witness :
    (DefaultSamlMappingProvider ⟨"email", fun s => s⟩).get_remote_user_id
        [("email", ["e@x"]), ("uid", ["u1", "u2"])] = .ok "u1" ∧
    (DefaultSamlMappingProvider ⟨"email", fun s => s⟩).get_remote_user_id
        [("email", ["e@x"])] =
      .error (.synapseError 400 "'uid' not in SAML2 response") :=
  ⟨(default_provider_remote_user_id_ignores_config ⟨"email", fun s => s⟩
      ⟨"uid", fun s => s⟩ [("email", ["e@x"]), ("uid", ["u1", "u2"])]).2.1
        "u1" ["u2"] (by decide),
   (default_provider_remote_user_id_ignores_config ⟨"email", fun s => s⟩
      ⟨"uid", fun s => s⟩ [("email", ["e@x"])]).2.2 (by decide)⟩

/-- Claim C8: whenever the configured source attribute is present, the
default mapper's candidate localpart is the configured normalization of its
first value, with the decimal `attemptIndex` appended verbatim when it is
non-zero and nothing appended at index 0. -/
theorem default_mapper_candidate_suffix
    (cfg : SamlConfig) (ava : Ava) (failures : Nat) (v : String) (vs : List String)
    (h1 : avaGet ava cfg.mxid_source_attribute = some (v :: vs))
    (h2 : avaGet ava "displayName" ≠ some ([] : List String)) :
    ∃ dn em, default_saml_response_to_user_attributes cfg ava failures =
      .ok ⟨some (if failures = 0 then cfg.mxid_mapper v
                 else cfg.mxid_mapper v ++ toString failures), dn, em⟩ := by
  rcases hd : avaGet ava "displayName" with _ | l
  · refine ⟨none, (avaGet ava "email").getD [], ?_⟩
    simp only [default_saml_response_to_user_attributes, h1, hd]
    by_cases hf : failures = 0 <;> simp [hf, string_append_empty_right]
  · match l with
    | [] => exact absurd hd h2
    | d :: ds =>
      refine ⟨some d, (avaGet ava "email").getD [], ?_⟩
      simp only [default_saml_response_to_user_attributes, h1, hd]
      by_cases hf : failures = 0 <;> simp [hf, string_append_empty_right]

/-- Witness for C8 at attempt indices 3 and 0 with the identity mapper. -/
theorem default_mapper_candidate_suffix_witness :
    (∃ dn em, default_saml_response_to_user_attributes ⟨"uid", fun s => s⟩
        [("uid", ["alice"])] 3 =
      .ok ⟨some (if 3 = 0 then "alice" else "alice" ++ toString 3), dn, em⟩) ∧
    (∃ dn em, default_saml_response_to_user_attributes ⟨"uid", fun s => s⟩
        [("uid", ["alice"])] 0 =
      .ok ⟨some (if 0 = 0 then "alice" else "alice" ++ toString 0), dn, em⟩) :=
  ⟨default_mapper_candidate_suffix ⟨"uid", fun s => s⟩ [("uid", ["alice"])] 3
      "alice" [] (by decide) (by decide),
   default_mapper_candidate_suffix ⟨"uid", fun s => s⟩ [("uid", ["alice"])] 0
      "alice" [] (by decide) (by decide)⟩

/-! ## Identity resolver: fast path, grandfather path, provisioning (C2, C3, C7) -/

/-- Claim C2: when the external user id already has a binding for the
provider, resolution returns the bound local user id, leaves the binding
table unchanged, and never invokes the registration collaborator. -/
theorem existing_binding_fast_path
    (P : MappingProvider) (grandfathered : Option String) (hostname : String)
    (accountsCI : String → List String) (register_user : RegisterFn)
    (bindings : List Binding) (cs : Option Saml2SessionData) (ava : Ava)
    (ruid uid : String)
    (h1 : P.get_remote_user_id ava = .ok ruid) (h2 : ruid ≠ "")
    (h3 : assocLookup bindings (auth_provider_id, ruid) = some uid) :
    resolveCore P grandfathered hostname accountsCI register_user bindings cs ava =
      ⟨.ok (uid, cs), bindings, []⟩ := by
  simp [resolveCore, h1, h2, h3]

/-- Witness for C2: a repeat login for `bob-ext` returns the bound
`@bob:hs` without registering anyone. -/
theorem existing_binding_fast_path_witness :
    resolveCore (DefaultSamlMappingProvider idCfg) none "hs" noAccounts
        demoRegister [(("saml", "bob-ext"), "@bob:hs")] none gfAva =
      ⟨.ok ("@bob:hs", none), [(("saml", "bob-ext"), "@bob:hs")], []⟩ :=
  existing_binding_fast_path (DefaultSamlMappingProvider idCfg) none "hs"
    noAccounts demoRegister [(("saml", "bob-ext"), "@bob:hs")] none gfAva
    "bob-ext" "@bob:hs" (by decide) (by decide) (by decide)

/-- Claim C3 (counterexample): the legacy-migration fallback fires whenever
the case-insensitive lookup is non-empty, not only on exactly one match:
with two matching accounts for the grandfathered candidate `@bob:hs`, the
binding is still created (to the first listed match) and that account
returned. -/
theorem grandfather_two_matches_counterexample :
    (gfTwoAccounts "@bob:hs").length = 2 ∧
    resolveCore (DefaultSamlMappingProvider idCfg) (some "legacy_uid") "hs"
        gfTwoAccounts demoRegister [] none gfAva =
      ⟨.ok ("@bob:hs", none), [(("saml", "bob-ext"), "@bob:hs")], []⟩ := by
  decide

/-- Claim C3 (amended): in the legacy-migration fallback, the binding is
created and an existing account returned whenever the case-insensitive
lookup for the normalized grandfathered attribute finds at least one match;
the first listed match is used. -/
theorem grandfather_first_match
    (P : MappingProvider) (hostname : String)
    (accountsCI : String → List String) (register_user : RegisterFn)
    (bindings : List Binding) (cs : Option Saml2SessionData) (ava : Ava)
    (ruid g attrval uid : String) (vs us : List String)
    (h1 : P.get_remote_user_id ava = .ok ruid) (h2 : ruid ≠ "")
    (h3 : assocLookup bindings (auth_provider_id, ruid) = none)
    (h5 : g ≠ "")
    (h6 : avaGet ava g = some (attrval :: vs))
    (h7 : accountsCI (UserID_to_string (map_username_to_mxid_localpart attrval) hostname) =
      uid :: us) :
    resolveCore P (some g) hostname accountsCI register_user bindings cs ava =
      ⟨.ok (uid, cs), bindings ++ [((auth_provider_id, ruid), uid)], []⟩ := by
  simp [resolveCore, h1, h2, h3, h5, h6, h7]

/-- Witness for C3 (amended): one matching account `@bob:hs` is adopted and
the binding row written. -/
theorem grandfather_first_match_witness :
    resolveCore (DefaultSamlMappingProvider idCfg) (some "legacy_uid") "hs"
        gfTwoAccounts demoRegister [] none gfAva =
      ⟨.ok ("@bob:hs", none), [(("saml", "bob-ext"), "@bob:hs")], []⟩ :=
  grandfather_first_match (DefaultSamlMappingProvider idCfg) "hs" gfTwoAccounts
    demoRegister [] none gfAva "bob-ext" "legacy_uid" "bob" "@bob:hs" [] ["@Bob:hs"]
    (by decide) (by decide) (by decide) (by decide) (by decide) (by decide)

/-- Claim C7: in fresh provisioning, the binding row is written only after
the registration collaborator reports success — a registration failure
propagates with the binding table unchanged, and a success appends exactly
the new row. -/
theorem binding_only_after_provisioning
    (P : MappingProvider) (hostname : String) (accountsCI : String → List String)
    (register_user : RegisterFn) (bindings : List Binding)
    (cs : Option Saml2SessionData) (ava : Ava) (ruid lp : String)
    (dn : Option String) (em : List String)
    (h1 : P.get_remote_user_id ava = .ok ruid) (h2 : ruid ≠ "")
    (h3 : assocLookup bindings (auth_provider_id, ruid) = none)
    (h4 : collisionLoop P ava accountsCI hostname 0 1000 = .ok (lp, dn, em)) :
    (∀ e, register_user lp dn em = .error e →
      resolveCore P none hostname accountsCI register_user bindings cs ava =
        ⟨.error e, bindings, [lp]⟩) ∧
    (∀ uid, register_user lp dn em = .ok uid →
      resolveCore P none hostname accountsCI register_user bindings cs ava =
        ⟨.ok (uid, cs), bindings ++ [((auth_provider_id, ruid), uid)], [lp]⟩) := by
  constructor
  · intro e he
    simp [resolveCore, freshPath, h1, h2, h3, h4, he]
  · intro uid hu
    simp [resolveCore, freshPath, h1, h2, h3, h4, hu]

/-- Witness for C7: a failing registration collaborator propagates its
error and no binding row is created. -/
theorem binding_only_after_provisioning_witness :
    resolveCore (DefaultSamlMappingProvider idCfg) none "hs" noAccounts
        failRegister [] none demoAva =
      ⟨.error (.otherError "registration database unavailable"), [], ["ext-alice"]⟩ :=
  (binding_only_after_provisioning (DefaultSamlMappingProvider idCfg) "hs"
      noAccounts failRegister [] none demoAva "ext-alice" "ext-alice" none []
      (by decide) (by decide) (by decide) (by decide)).1
    (.otherError "registration database unavailable") rfl

/-! ## Error paths of assertion-response handling (C5, C6) -/

theorem freshPath_error_keeps_bindings (P : MappingProvider) (hostname : String)
    (accountsCI : String → List String) (register_user : RegisterFn)
    (bindings : List Binding) (cs : Option Saml2SessionData) (ava : Ava)
    (ruid : String) (e : PyError)
    (h : (freshPath P hostname accountsCI register_user bindings cs ava ruid).result =
      .error e) :
    (freshPath P hostname accountsCI register_user bindings cs ava ruid).bindings =
      bindings := by
  rcases hc : collisionLoop P ava accountsCI hostname 0 1000 with e' | x
  · simp [freshPath, hc]
  · obtain ⟨lp, dn, em⟩ := x
    rcases hr : register_user lp dn em with e' | uid
    · simp [freshPath, hc, hr]
    · exfalso
      simp [freshPath, hc, hr] at h

theorem resolveCore_error_keeps_bindings (P : MappingProvider)
    (grandfathered : Option String) (hostname : String)
    (accountsCI : String → List String) (register_user : RegisterFn)
    (bindings : List Binding) (cs : Option Saml2SessionData) (ava : Ava)
    (e : PyError)
    (h : (resolveCore P grandfathered hostname accountsCI register_user bindings cs ava).result =
      .error e) :
    (resolveCore P grandfathered hostname accountsCI register_user bindings cs ava).bindings =
      bindings := by
  rcases hg : P.get_remote_user_id ava with e' | ruid
  · simp [resolveCore, hg]
  · by_cases hr : ruid = ""
    · simp [resolveCore, hg, hr]
    · rcases hb : assocLookup bindings (auth_provider_id, ruid) with _ | uid
      · rcases grandfathered with _ | g
        · have heq : resolveCore P none hostname accountsCI register_user bindings cs ava =
              freshPath P hostname accountsCI register_user bindings cs ava ruid := by
            simp [resolveCore, hg, hr, hb]
          rw [heq] at h ⊢
          exact freshPath_error_keeps_bindings P hostname accountsCI register_user
            bindings cs ava ruid e h
        · by_cases hgn : g = ""
          · have heq : resolveCore P (some g) hostname accountsCI register_user bindings cs ava =
                freshPath P hostname accountsCI register_user bindings cs ava ruid := by
              simp [resolveCore, hg, hr, hb, hgn]
            rw [heq] at h ⊢
            exact freshPath_error_keeps_bindings P hostname accountsCI register_user
              bindings cs ava ruid e h
          · rcases ha : avaGet ava g with _ | l
            · have heq : resolveCore P (some g) hostname accountsCI register_user bindings cs ava =
                  freshPath P hostname accountsCI register_user bindings cs ava ruid := by
                simp [resolveCore, hg, hr, hb, hgn, ha]
              rw [heq] at h ⊢
              exact freshPath_error_keeps_bindings P hostname accountsCI register_user
                bindings cs ava ruid e h
            · match l with
              | [] => simp [resolveCore, hg, hr, hb, hgn, ha]
              | attrval :: vs =>
                rcases hacc : accountsCI
                    (UserID_to_string (map_username_to_mxid_localpart attrval) hostname)
                  with _ | ⟨u, us⟩
                · have heq : resolveCore P (some g) hostname accountsCI register_user bindings cs ava =
                      freshPath P hostname accountsCI register_user bindings cs ava ruid := by
                    simp [resolveCore, hg, hr, hb, hgn, ha, hacc]
                  rw [heq] at h ⊢
                  exact freshPath_error_keeps_bindings P hostname accountsCI register_user
                    bindings cs ava ruid e h
                · exfalso
                  simp [resolveCore, hg, hr, hb, hgn, ha, hacc] at h
      · exfalso
        simp [resolveCore, hg, hr, hb] at h

/-- Claim C5 (counterexample): when the assertion lacks the required `uid`
attribute — a ClientProtocolError (400) — the matching pending session has
already been popped, so the pending-session table is not the same after the
failure as before: the `req1` entry is gone. -/
theorem client_error_mutates_pending_counterexample :
    (map_saml_response_to_user (DefaultSamlMappingProvider idCfg) none "hs"
        noAccounts demoRegister c5Outstanding [] c5Resp).result =
      .error (.synapseError 400 "'uid' not in SAML2 response") ∧
    (map_saml_response_to_user (DefaultSamlMappingProvider idCfg) none "hs"
        noAccounts demoRegister c5Outstanding [] c5Resp).outstanding = [] ∧
    c5Outstanding = [("req1", ⟨100, none⟩)] := by
  decide

/-- Claim C5 (amended): whenever assertion-response handling fails, no
binding state is mutated; the pending-session table is unchanged for
failures raised before the inResponseTo pop (unparseable response, unsigned
response, no match), while for later failures (e.g. a required attribute
missing from the assertion) the matching pending session has already been
consumed, so the table is the original with that entry removed. -/
theorem handling_failure_keeps_binding_state
    (P : MappingProvider) (grandfathered : Option String) (hostname : String)
    (accountsCI : String → List String) (register_user : RegisterFn)
    (outstanding : OutstandingTable) (bindings : List Binding)
    (resp : RawResponse) (e : PyError)
    (h : (map_saml_response_to_user P grandfathered hostname accountsCI register_user
        outstanding bindings resp).result = .error e) :
    (map_saml_response_to_user P grandfathered hostname accountsCI register_user
        outstanding bindings resp).bindings = bindings ∧
    ((map_saml_response_to_user P grandfathered hostname accountsCI register_user
        outstanding bindings resp).outstanding = outstanding ∨
      (map_saml_response_to_user P grandfathered hostname accountsCI register_user
        outstanding bindings resp).outstanding =
        assocRemove outstanding resp.in_response_to) := by
  rcases hp : parse_authn_request_response resp (outstanding.map Prod.fst) with msg | auth
  · constructor
    · simp [map_saml_response_to_user, hp]
    · exact Or.inl (by simp [map_saml_response_to_user, hp])
  · have hauth : auth = ⟨resp.not_signed, resp.in_response_to, resp.ava⟩ := by
      unfold parse_authn_request_response at hp
      split at hp
      · exact absurd hp (by simp)
      · split at hp
        · injection hp with h'
          exact h'.symm
        · exact absurd hp (by simp)
    subst hauth
    by_cases hs : resp.not_signed = true
    · constructor
      · simp [map_saml_response_to_user, hp, hs]
      · exact Or.inl (by simp [map_saml_response_to_user, hp, hs])
    · simp only [map_saml_response_to_user, hp, hs] at h ⊢
      simp only [Bool.false_eq_true, if_false] at h ⊢
      refine ⟨resolveCore_error_keeps_bindings P grandfathered hostname accountsCI
        register_user bindings (assocLookup outstanding resp.in_response_to)
        resp.ava e h, Or.inr trivial⟩

/-- Witness for C5 (amended) at the counterexample input: bindings are
untouched and the table is the original with `req1` removed. -/
theorem handling_failure_keeps_binding_state_witness :
    (map_saml_response_to_user (DefaultSamlMappingProvider idCfg) none "hs"
        noAccounts demoRegister c5Outstanding [] c5Resp).bindings = [] ∧
    ((map_saml_response_to_user (DefaultSamlMappingProvider idCfg) none "hs"
        noAccounts demoRegister c5Outstanding [] c5Resp).outstanding = c5Outstanding ∨
      (map_saml_response_to_user (DefaultSamlMappingProvider idCfg) none "hs"
        noAccounts demoRegister c5Outstanding [] c5Resp).outstanding =
        assocRemove c5Outstanding c5Resp.in_response_to) :=
  handling_failure_keeps_binding_state (DefaultSamlMappingProvider idCfg) none "hs"
    noAccounts demoRegister c5Outstanding [] c5Resp
    (.synapseError 400 "'uid' not in SAML2 response") (by decide)

/-- Claim C6: a response whose `inResponseTo` matches no tracked pending
session is rejected as a 400 ClientProtocolError — its parse against the
outstanding request ids fails — with no state mutated and no login
completed. -/
theorem no_in_response_to_match_rejected
    (P : MappingProvider) (grandfathered : Option String) (hostname : String)
    (accountsCI : String → List String) (register_user : RegisterFn)
    (outstanding : OutstandingTable) (bindings : List Binding)
    (resp : RawResponse)
    (h : resp.in_response_to ∉ outstanding.map Prod.fst) :
    ∃ msg, map_saml_response_to_user P grandfathered hostname accountsCI
        register_user outstanding bindings resp =
      ⟨.error (.synapseError 400 msg), outstanding, bindings, []⟩ := by
  refine ⟨"Unable to parse SAML2 response: " ++
    (if resp.parses = false then "invalid response" else "unsolicited response"), ?_⟩
  by_cases hp : resp.parses = false <;>
    simp [map_saml_response_to_user, parse_authn_request_response, hp, h]

/-- Witness for C6: a signed, parseable response answering the untracked
request id `nope` is rejected with a 400 and the state untouched. -/
theorem no_in_response_to_match_rejected_witness :
    ∃ msg, map_saml_response_to_user (DefaultSamlMappingProvider idCfg) none "hs"
        noAccounts demoRegister c5Outstanding []
        ⟨true, false, "nope", [("uid", ["u"])]⟩ =
      ⟨.error (.synapseError 400 msg), c5Outstanding, [], []⟩ :=
  no_in_response_to_match_rejected (DefaultSamlMappingProvider idCfg) none "hs"
    noAccounts demoRegister c5Outstanding []
    ⟨true, false, "nope", [("uid", ["u"])]⟩ (by decide)

/-! ## Collision-retry loop (C1) -/

theorem string_data_append (s t : String) : (s ++ t).data = s.data ++ t.data := by
  cases s
  cases t
  rfl

theorem append_ne_empty_of_left (s t : String) (h : s.data ≠ []) : s ++ t ≠ "" := by
  intro he
  apply h
  have hd := congrArg String.data he
  rw [string_data_append] at hd
  exact (List.append_eq_nil.mp hd).1

theorem demoCand_ne_empty (i : Nat) : demoCand i ≠ "" :=
  append_ne_empty_of_left "alice" _ (by decide)

theorem collisionLoop_exhausted
    (P : MappingProvider) (ava : Ava) (accountsCI : String → List String)
    (hostname : String) (cand : Nat → String) (dn : Nat → Option String)
    (em : Nat → List String)
    (hP : ∀ i, P.saml_response_to_user_attributes ava i = .ok ⟨some (cand i), dn i, em i⟩)
    (hne : ∀ i, cand i ≠ "") :
    ∀ fuel i,
      (∀ k, k < fuel → accountsCI (UserID_to_string (cand (i + k)) hostname) ≠ []) →
      collisionLoop P ava accountsCI hostname i fuel =
        .error (.synapseError 500 "Unable to generate a Matrix ID from the SAML response") := by
  intro fuel
  induction fuel with
  | zero => intro i _; rfl
  | succ n ih =>
    intro i h
    have h0 : accountsCI (UserID_to_string (cand i) hostname) ≠ [] := by
      have := h 0 (Nat.succ_pos n)
      simpa using this
    have hrest : ∀ k, k < n → accountsCI (UserID_to_string (cand (i + 1 + k)) hostname) ≠ [] := by
      intro k hk
      have := h (k + 1) (Nat.succ_lt_succ hk)
      have he : i + (k + 1) = i + 1 + k := by omega
      rwa [he] at this
    simp [collisionLoop, hP i, hne i, h0, ih (i + 1) hrest]

theorem collisionLoop_selects
    (P : MappingProvider) (ava : Ava) (accountsCI : String → List String)
    (hostname : String) (cand : Nat → String) (dn : Nat → Option String)
    (em : Nat → List String)
    (hP : ∀ i, P.saml_response_to_user_attributes ava i = .ok ⟨some (cand i), dn i, em i⟩)
    (hne : ∀ i, cand i ≠ "") :
    ∀ fuel j i, j < fuel →
      accountsCI (UserID_to_string (cand (i + j)) hostname) = [] →
      (∀ k, k < j → accountsCI (UserID_to_string (cand (i + k)) hostname) ≠ []) →
      collisionLoop P ava accountsCI hostname i fuel =
        .ok (cand (i + j), dn (i + j), em (i + j)) := by
  intro fuel
  induction fuel with
  | zero => intro j i hj; exact absurd hj (Nat.not_lt_zero j)
  | succ n ih =>
    intro j i hj hfree htaken
    cases j with
    | zero =>
      have hfree' : accountsCI (UserID_to_string (cand i) hostname) = [] := by
        simpa using hfree
      simp [collisionLoop, hP i, hne i, hfree']
    | succ j' =>
      have h0 : accountsCI (UserID_to_string (cand i) hostname) ≠ [] := by
        have := htaken 0 (Nat.succ_pos j')
        simpa using this
      have he : i + (j' + 1) = i + 1 + j' := by omega
      rw [he] at hfree
      have htaken' : ∀ k, k < j' →
          accountsCI (UserID_to_string (cand (i + 1 + k)) hostname) ≠ [] := by
        intro k hk
        have := htaken (k + 1) (Nat.succ_lt_succ hk)
        have he' : i + (k + 1) = i + 1 + k := by omega
        rwa [he'] at this
      have hrec := ih j' (i + 1) (Nat.lt_of_succ_lt_succ hj) hfree htaken'
      rw [he]
      simp [collisionLoop, hP i, hne i, h0, hrec]

/-- Claim C1: fresh provisioning loops `attemptIndex` from 0 with a fixed
bound of 1000 attempts, calling the mapper's `toAttributes` at each index
and checking the case-insensitive existing-account lookup; it selects the
first (lowest-index) candidate with no existing account, and if all 1000
attempts are taken it fails with `SynapseError(500, ...)` (its witness
instantiates a static mapper with candidates 0 through 5 taken, selecting
attempt index 6). -/
theorem fresh_provisioning_collision_retry
    (P : MappingProvider) (ava : Ava) (accountsCI : String → List String)
    (hostname : String) (cand : Nat → String) (dn : Nat → Option String)
    (em : Nat → List String)
    (hP : ∀ i, P.saml_response_to_user_attributes ava i = .ok ⟨some (cand i), dn i, em i⟩)
    (hne : ∀ i, cand i ≠ "") :
    ((∀ i, i < 1000 → accountsCI (UserID_to_string (cand i) hostname) ≠ []) →
      collisionLoop P ava accountsCI hostname 0 1000 =
        .error (.synapseError 500 "Unable to generate a Matrix ID from the SAML response")) ∧
    (∀ j, j < 1000 → accountsCI (UserID_to_string (cand j) hostname) = [] →
      (∀ i, i < j → accountsCI (UserID_to_string (cand i) hostname) ≠ []) →
      collisionLoop P ava accountsCI hostname 0 1000 = .ok (cand j, dn j, em j)) := by
  constructor
  · intro h
    refine collisionLoop_exhausted P ava accountsCI hostname cand dn em hP hne 1000 0 ?_
    intro k hk
    simpa using h k hk
  · intro j hj hfree htaken
    have := collisionLoop_selects P ava accountsCI hostname cand dn em hP hne 1000 j 0 hj
      (by simpa using hfree) (fun k hk => by simpa using htaken k hk)
    simpa using this

/-- Witness for C1: a static mapper always proposing base `alice`, with the
candidates at attempt indices 0 through 5 already taken, selects the
candidate at attempt index 6 (`alice6`). -/
theorem fresh_provisioning_collision_retry_witness :
    collisionLoop (DefaultSamlMappingProvider staticCfg) demoAva takenThrough5 "hs" 0 1000 =
      .ok (demoCand 6, none, []) :=
  (fresh_provisioning_collision_retry (DefaultSamlMappingProvider staticCfg) demoAva
      takenThrough5 "hs" demoCand (fun _ => none) (fun _ => [])
      (fun _ => rfl) demoCand_ne_empty).2 6 (by decide) (by decide) (by decide)

end SamlSpec
